import Mathlib

/-!
Verification development for the Sathi voice-assistant core.

This file gives a shallow embedding, in Lean 4, of the pure decision logic of
the repository's core modules and proves properties of that logic:

* `src/core/main.py` — wake-word scoring (`is_wake_word`), the wake-loop
  threshold policy of `sathi_assistant`, and the LLM dispatch branch of
  `sathi_interaction`;
* `src/core/calendar_and_clock.py` — intent detection over regex pattern
  groups, the keyword fallback, and the date/time/day/calendar formatters;
* `src/core/tts_output.py` — voice selection and the return-value behaviour
  of `speak_text`;
* `src/core/llm_gemma.py` — `query_gemma` prompt assembly and (absence of)
  error handling.

Python floats are embedded as rationals (`ℚ`): every score produced by the
code is an exact small rational (SequenceMatcher ratios are `2*M/T` with
natural `M`, `T`), so no floating-point rounding is involved at the values
the theorems touch.  Python strings are embedded as `String` / `List Char`;
`str.lower` is embedded with `Char.toLower` (ASCII lowering — the characters
the wake normalizer keeps are exactly ASCII `[a-z0-9 ]`, and every other
character is replaced by a space on both sides, so the embedding agrees with
the code on the inputs the theorems quantify over).  Python-level exceptions
from external engines (pyttsx3, the Gemini client) are embedded as explicit
`Bool` / `Except` parameters.
-/

set_option autoImplicit false

namespace Sathi

/-! ### Wake-loop threshold policy — `src/core/main.py`, `sathi_assistant`

The wake loop (lines 178-258) records, transcribes and scores each utterance.
The decision on one scored utterance while idle is a pure function of the
score.  Lines 194-204 are the block that executes: `if score >= 0.70:`
unconditionally `break`s into the conversation loop, and the `else:` branch
unconditionally `continue`s, so every control path leaves the loop iteration
here and the second threshold block (lines 206-258, the 0.9 accept /
0.55-confirmation two-tier policy) is unreachable dead code.  Both blocks are
embedded below. -/

/-- Outcome of handling one scored utterance while the assistant is idle. -/
inductive WakeOutcome : Type
  | conversing        -- greeting emitted, `break` into the conversation loop
  | awaitConfirmation -- confirmation prompt emitted, bounded re-listen begins
  | idle              -- utterance discarded, keep listening
deriving DecidableEq, Repr

/-- The wake decision actually executed (main.py lines 194-204):
`if score >= 0.70: ... break` / `else: ... continue`. -/
def wake_decision (score : ℚ) : WakeOutcome :=
  if 70/100 ≤ score then .conversing else .idle

/-- The dead second threshold block (main.py lines 215-258), as written:
`if score >= 0.9: ... break` / `elif score >= 0.55:` confirmation sub-dialog /
`else: ... ` keep listening.  Unreachable at runtime because both paths of
lines 194-204 already exit the iteration. -/
def wake_decision_unreachable (score : ℚ) : WakeOutcome :=
  if 9/10 ≤ score then .conversing
  else if 55/100 ≤ score then .awaitConfirmation
  else .idle

/-! ### Ordinal suffix — `src/core/calendar_and_clock.py`, `get_ordinal_suffix` -/

/-- Embedding of `get_ordinal_suffix` (calendar_and_clock.py lines 117-123):
`if 10 <= day % 100 <= 20: suffix = 'th' else:
suffix = {1:'st', 2:'nd', 3:'rd'}.get(day % 10, 'th')`; returns
`f"{day}{suffix}"`. -/
def get_ordinal_suffix (day : Nat) : String :=
  let suffix :=
    if 10 ≤ day % 100 ∧ day % 100 ≤ 20 then "th"
    else match day % 10 with
      | 1 => "st"
      | 2 => "nd"
      | 3 => "rd"
      | _ => "th"
  toString day ++ suffix

/-- Modelled from the spec's words (spec §4.4, ordinal-suffix rule), for
comparison with `get_ordinal_suffix`: day mod 100 in [10,20] gives "th";
otherwise the last digit decides via 1 ↦ "st", 2 ↦ "nd", 3 ↦ "rd",
default "th". -/
def spec_ordinal_suffix (day : Nat) : String :=
  if 10 ≤ day % 100 ∧ day % 100 ≤ 20 then "th"
  else if day % 10 = 1 then "st"
  else if day % 10 = 2 then "nd"
  else if day % 10 = 3 then "rd"
  else "th"

/-! ### Text-to-speech — `src/core/tts_output.py`, `speak_text`

`speak_text(text, use_male_voice)` (lines 61-111) returns (in Python):
`None` when `text` is falsy (lines 68-70), `None` when the engine reports no
voices (lines 80-83), `True` after a completed `say`/`runAndWait`
(lines 103-106), and `False` when the pyttsx3 engine raises
(lines 108-111).  The pyttsx3 engine is external; whether it raises is
embedded as the explicit parameter `engine_fails`. -/

/-- A system TTS voice as seen through pyttsx3: a display name and an id. -/
structure Voice : Type where
  name : String
  id : String
deriving DecidableEq, Repr

/-- Python `needle in hay` on strings, as a substring test over char lists. -/
def py_in (needle : List Char) : List Char → Bool
  | [] => needle.isPrefixOf []
  | c :: t => needle.isPrefixOf (c :: t) || py_in needle t

/-- Voice-preference scan of `speak_text` (tts_output.py lines 86-94): first
voice whose lowercased name contains "david"/"male" (male preference) or
"zira"/"female" (female preference); `None` if no voice matches. -/
def select_voice (use_male_voice : Bool) : List Voice → Option String
  | [] => none
  | v :: vs =>
    let n := v.name.toList.map Char.toLower
    if use_male_voice && (py_in "david".toList n || py_in "male".toList n) then
      some v.id
    else if !use_male_voice && (py_in "zira".toList n || py_in "female".toList n) then
      some v.id
    else select_voice use_male_voice vs

/-- A Python return value that is either `None` or a bool. -/
inductive PyRet : Type
  | none
  | bool (b : Bool)
deriving DecidableEq, Repr

/-- Embedding of `speak_text` (tts_output.py lines 61-111).  Returns the
Python return value together with the id of the voice actually configured for
speaking (`Option.none` when nothing was spoken).  `engine_fails` embeds the
pyttsx3 engine raising inside the `try` block (lines 108-111 return
`False`). -/
def speak_text (engine_fails : Bool) (voices : List Voice)
    (use_male_voice : Bool) (text : String) : PyRet × Option String :=
  if text = "" then (.none, Option.none)                -- lines 68-70: bare `return`
  else if engine_fails then (.bool false, Option.none)  -- lines 108-111: `return False`
  else match voices with
    | [] => (.none, Option.none)                        -- lines 80-83: bare `return`
    | v0 :: vs =>
      match select_voice use_male_voice (v0 :: vs) with
      | some vid => (.bool true, some vid)              -- lines 97-98, 103-106
      | Option.none => (.bool true, some v0.id)         -- lines 99-101: fall back to voices[0]

/-! ### LLM dispatch — `src/core/llm_gemma.py` and `src/core/main.py`

`query_gemma` (llm_gemma.py lines 29-33) prepends the system prompt and calls
the external Gemini model with no error handling of its own, so any failure
of `model.generate_content` propagates to the caller.  The external call is
embedded as a function into `Except String String` (`.error` = the client
raised).  The caller `sathi_interaction` (main.py lines 157-168) wraps the
call in `try`/`except`; the `except` branch prints the error and does a bare
`return` — no speech output is produced on that path. -/

/-- The system prompt of llm_gemma.py (lines 7-25). -/
def SYSTEM_PROMPT : String :=
  "\nYou are Sathi, a gentle elder care companion. Follow these guidelines:\n\n1. Communication:\n   - Use simple, clear English\n   - Keep responses short (2-3 sentences)\n   - Speak slowly and warmly\n\n2. Daily Care:\n   - Medicine reminders\n   - Meals and water\n   - Rest and light exercise\n\n3. Support:\n   - Show patience and kindness\n   - Comfort when lonely\n   - Alert family if health concerns arise\n\nBe their trusted friend. Make them feel safe."

/-- Embedding of `query_gemma` (llm_gemma.py lines 29-33):
`full_prompt = f"{SYSTEM_PROMPT}\nUser: {prompt}"`, then the external
`model.generate_content(full_prompt).text` with no local error handling —
a failing client propagates unchanged. -/
def query_gemma (generate_content : String → Except String String)
    (prompt : String) : Except String String :=
  generate_content (SYSTEM_PROMPT ++ "\nUser: " ++ prompt)

/-- What the LLM branch of `sathi_interaction` does with the call result. -/
inductive LLMOutcome : Type
  | spoke (response : String) -- printed, then spoken via speak_text / text_to_speech
  | silentReturn              -- `except` branch: print the error, bare `return`
deriving DecidableEq, Repr

/-- Embedding of main.py lines 157-168: on success the response is printed
and spoken (lines 160-161, 167-168); if `query_gemma` raised, the `except`
branch prints `LLM Error` and returns with no spoken output (lines 162-164). -/
def llm_step (result : Except String String) : LLMOutcome :=
  match result with
  | .ok r => .spoke r
  | .error _ => .silentReturn

/-- Whether an interaction outcome produced any spoken response. -/
def emits_spoken_response : LLMOutcome → Bool
  | .spoke _ => true
  | .silentReturn => false

/-- A conversational responder whose external client always fails
(e.g. the Gemini endpoint is unreachable). -/
def failing_responder : String → Except String String :=
  fun _ => Except.error "503 Service Unavailable"

/-! ### Exact embedding of the Python floats of the wake scorer

Every float the wake scorer manipulates is of the form `n / d` for small
naturals (`SequenceMatcher.ratio` is `2*M/T`; the thresholds are decimal
literals), so they are embedded as exact fractions.  Comparisons are by
cross-multiplication, and `PyFloat.toRat` gives the rational value for the
statements of the theorems. -/

/-- An exact nonnegative fraction `num / den` (not necessarily reduced);
every value built by the scorer has `den ≠ 0`. -/
structure PyFloat : Type where
  num : Nat
  den : Nat
deriving DecidableEq, Repr

/-- Value comparison `a <= b` by cross-multiplication. -/
def PyFloat.le (a b : PyFloat) : Bool := decide (a.num * b.den ≤ b.num * a.den)

/-- Value comparison `a < b` by cross-multiplication. -/
def PyFloat.lt (a b : PyFloat) : Bool := decide (a.num * b.den < b.num * a.den)

/-- The rational value of a `PyFloat`. -/
def PyFloat.toRat (a : PyFloat) : ℚ := (a.num : ℚ) / (a.den : ℚ)

/-! ### Wake-word scorer — `src/core/main.py`, `is_wake_word` (lines 44-109) -/

/-- One character of `re.sub(r'[^a-z0-9 ]', ' ', ·)`: keep lowercase ASCII
letters, digits and the space, replace everything else by a space. -/
def keep_alnum_space (c : Char) : Char :=
  if ('a' ≤ c ∧ c ≤ 'z') ∨ ('0' ≤ c ∧ c ≤ '9') ∨ c = ' ' then c else ' '

/-- `re.sub(r'[^a-z0-9 ]', ' ', s.lower())`: lowercase, then replace every
character outside `[a-z0-9 ]` by a space.  (`Char.toLower` lowers ASCII;
Python's `str.lower` additionally lowers non-ASCII letters, but those are
replaced by a space under either lowering, so the two agree after the
substitution for all inputs whose lowercase forms stay non-ASCII.) -/
def sanitize (l : List Char) : List Char :=
  l.map fun c => keep_alnum_space c.toLower

/-- `re.sub(r'\s+', ' ', ·)`: collapse whitespace runs to one space.  After
`sanitize` the only whitespace character left is `' '` (tabs, newlines and
all other whitespace were already replaced by `' '`), so collapsing runs of
`' '` is exactly the `\s+` substitution at its use sites. -/
def collapse_sp : List Char → List Char
  | [] => []
  | [c] => [c]
  | c :: d :: l =>
    if c = ' ' ∧ d = ' ' then collapse_sp (d :: l)
    else c :: collapse_sp (d :: l)

/-- Python `str.strip()`, restricted to `' '` (the only whitespace present
at its use sites, see `collapse_sp`). -/
def strip_sp (l : List Char) : List Char :=
  ((l.dropWhile (· = ' ')).reverse.dropWhile (· = ' ')).reverse

/-- main.py lines 64-65: normalization of the incoming text inside
`is_wake_word` — sanitize, collapse whitespace, then strip. -/
def norm_text (s : String) : List Char :=
  strip_sp (collapse_sp (sanitize s.toList))

/-- main.py lines 71-72: per-phrase normalization inside the wake loop —
sanitize, strip, then collapse whitespace (the opposite order to
`norm_text`). -/
def norm_wake (s : String) : List Char :=
  collapse_sp (strip_sp (sanitize s.toList))

/-- Python `str.split()`: split on whitespace runs, dropping empty pieces. -/
def py_split (l : List Char) : List (List Char) :=
  (l.splitOn ' ').filter fun w => !w.isEmpty

/-- Python `' '.join ws`. -/
def py_join_sp (ws : List (List Char)) : List Char :=
  List.intercalate [' '] ws

/-- Length of the longest common run at the heads of two lists. -/
def common_run : List Char → List Char → Nat
  | a :: as, b :: bs => if a = b then common_run as bs + 1 else 0
  | _, _ => 0

/-- difflib `SequenceMatcher.find_longest_match` over the whole strings
(no junk: the autojunk heuristic only applies when `len(b) >= 200`, far
beyond the strings here): the triple `(i, j, k)` maximizing the length `k` of
the common run of `a.drop i` and `b.drop j`, ties broken by smallest `i`,
then smallest `j` — realized as a left-to-right scan whose incumbent is only
replaced by a strictly longer run, starting from `(0, 0, 0)`. -/
def find_longest_match (a b : List Char) : Nat × Nat × Nat :=
  ((List.range a.length).flatMap fun i =>
    (List.range b.length).map fun j => (i, j, common_run (a.drop i) (b.drop j))).foldl
    (fun best c => if best.2.2 < c.2.2 then c else best) (0, 0, 0)

/-- Total size `M` of difflib's matching blocks (`get_matching_blocks`):
recursively take the longest match and recurse on the slices before and
after it.  `fuel` bounds the recursion depth: every recursive call strictly
shortens `a`, so the `a.length + 1` passed by `match_total` always
suffices. -/
def match_total_fuel : Nat → List Char → List Char → Nat
  | 0, _, _ => 0
  | fuel + 1, a, b =>
    let r := find_longest_match a b
    if r.2.2 = 0 then 0
    else
      match_total_fuel fuel (a.take r.1) (b.take r.2.1) + r.2.2 +
        match_total_fuel fuel (a.drop (r.1 + r.2.2)) (b.drop (r.2.1 + r.2.2))

/-- Total size of difflib's matching blocks for `SequenceMatcher(None, a, b)`. -/
def match_total (a b : List Char) : Nat :=
  match_total_fuel (a.length + 1) a b

/-- difflib `SequenceMatcher(None, a, b).ratio()`: `2.0 * M / T` where
`T = len(a) + len(b)` (and `1.0` when `T = 0`). -/
def sm_ratio (a b : List Char) : PyFloat :=
  let T := a.length + b.length
  if T = 0 then ⟨1, 1⟩ else ⟨2 * match_total a b, T⟩

/-- Sliding-window tier of `is_wake_word` (main.py lines 90-98), iterated
over the window start indices: `.inl s` is the early `return score` on
reaching `span_threshold`; `.inr best` means the scan finished with running
maximum `best`. -/
def window_scan (w : List Char) (tokens : List (List Char)) (win_len : Nat)
    (span_threshold : PyFloat) : List Nat → PyFloat → PyFloat ⊕ PyFloat
  | [], best => .inr best
  | i :: rest, best =>
    let window := py_join_sp ((tokens.drop i).take win_len)
    let score := sm_ratio window w
    let best' := if best.lt score then score else best
    if span_threshold.le score then .inl score
    else window_scan w tokens win_len span_threshold rest best'

/-- Inner loop of the single-token fuzzy tier (main.py lines 102-107):
compare one wake token against every text token. -/
def token_scan_inner (wt : List Char) (token_threshold : PyFloat) :
    List (List Char) → PyFloat → PyFloat ⊕ PyFloat
  | [], best => .inr best
  | tk :: tks, best =>
    let s := sm_ratio tk wt
    let best' := if best.lt s then s else best
    if token_threshold.le s then .inl s
    else token_scan_inner wt token_threshold tks best'

/-- Outer loop of the single-token fuzzy tier (main.py lines 101-107). -/
def token_scan (token_threshold : PyFloat) (tokens : List (List Char)) :
    List (List Char) → PyFloat → PyFloat ⊕ PyFloat
  | [], best => .inr best
  | wt :: wts, best =>
    match token_scan_inner wt token_threshold tokens best with
    | .inl ret => .inl ret
    | .inr best' => token_scan token_threshold tokens wts best'

/-- Per-phrase loop of `is_wake_word` (main.py lines 70-109), with the five
tiers in source order and their early returns. -/
def wake_loop (norm : List Char) (tokens : List (List Char))
    (span_threshold token_threshold : PyFloat) : List String → PyFloat → PyFloat
  | [], best => best
  | wake :: rest, best =>
    let w := norm_wake wake
    if w = [] then wake_loop norm tokens span_threshold token_threshold rest best
    else if norm = w then ⟨1, 1⟩                       -- exact: return 1.0
    else if py_in w norm then ⟨95, 100⟩                -- substring: return 0.95
    else
      let w_tokens := py_split w
      if w_tokens.all (fun t => tokens.contains t) then ⟨9, 10⟩ -- token subset: 0.9
      else
        let win_len := max 1 w_tokens.length
        match window_scan w tokens win_len span_threshold
            (List.range (max 1 (tokens.length + 1 - win_len))) best with
        | .inl ret => ret
        | .inr best' =>
          match token_scan token_threshold tokens w_tokens best' with
          | .inl ret => ret
          | .inr best'' => wake_loop norm tokens span_threshold token_threshold rest best''

/-- Embedding of `is_wake_word` (main.py lines 44-109), generalized over the
module-level `WAKE_WORDS` list the source reads.  (`range(0, max(1,
len(tokens) - win_len + 1))` becomes `List.range (max 1 (tokens.length + 1 -
win_len))`: truncated `Nat` subtraction maps every nonpositive Python bound
to `0`, and `max 1` restores the shared floor of one window.) -/
def is_wake_word (wake_words : List String)
    (span_threshold token_threshold : PyFloat) (text : String) : PyFloat :=
  if text = "" then ⟨0, 1⟩                              -- `if not text: return 0.0`
  else
    let norm := norm_text text
    let tokens := py_split norm
    wake_loop norm tokens span_threshold token_threshold wake_words ⟨0, 1⟩

/-- Default `span_threshold=0.65` of `is_wake_word`. -/
def span_threshold_default : PyFloat := ⟨65, 100⟩

/-- Default `token_threshold=0.85` of `is_wake_word`. -/
def token_threshold_default : PyFloat := ⟨85, 100⟩

/-- The configured wake phrases (main.py lines 28-32). -/
def WAKE_WORDS : List String :=
  ["hey sathi", "hi sathi", "ok sathi", "sathi",
   "hello sathi", "dear sathi", "sathi please",
   "sathi help", "listen sathi", "sathi are you there"]

/-! ### Regular expressions — engine for `src/core/calendar_and_clock.py`

The intent patterns of calendar_and_clock.py use literals, non-capturing
groups, alternation `|`, the option suffix `?` and one lazy `.*?`.  They are
embedded as regular-expression terms and matched with Brzozowski
derivatives; `re_search` is Python's `re.search` (does the pattern match
anywhere in the text?).  Laziness is irrelevant to the boolean result of a
search, and `.` matches any character except a newline, as in Python without
`re.DOTALL`. -/

/-- Regular-expression terms: empty language, empty string, a literal
character, `.` (any character except newline), concatenation, alternation,
and Kleene star. -/
inductive Regex : Type
  | fail
  | eps
  | chr (c : Char)
  | dot
  | seq (r s : Regex)
  | alt (r s : Regex)
  | star (r : Regex)
deriving DecidableEq, Repr

/-- Does the regex accept the empty string? -/
def Regex.nullable : Regex → Bool
  | .fail => false
  | .eps => true
  | .chr _ => false
  | .dot => false
  | .seq r s => r.nullable && s.nullable
  | .alt r s => r.nullable || s.nullable
  | .star _ => true

/-- Brzozowski derivative of a regex by one character. -/
def Regex.deriv : Regex → Char → Regex
  | .fail, _ => .fail
  | .eps, _ => .fail
  | .chr c, a => if a = c then .eps else .fail
  | .dot, a => if a = '\n' then .fail else .eps
  | .seq r s, a =>
    if r.nullable then .alt (.seq (r.deriv a) s) (s.deriv a)
    else .seq (r.deriv a) s
  | .alt r s, a => .alt (r.deriv a) (s.deriv a)
  | .star r, a => .seq (r.deriv a) (.star r)

/-- Does the regex match some prefix of the list? -/
def match_prefix_at (r : Regex) : List Char → Bool
  | [] => r.nullable
  | c :: l => r.nullable || match_prefix_at (r.deriv c) l

/-- Python `re.search`: does the regex match a substring starting at some
position of the text? -/
def re_search (r : Regex) : List Char → Bool
  | [] => r.nullable
  | c :: l => match_prefix_at r (c :: l) || re_search r l

/-- A string literal as a regex. -/
def re_lit (s : String) : Regex :=
  s.toList.foldr (fun c r => .seq (.chr c) r) .eps

/-- `(?:r)?` — option. -/
def re_opt (r : Regex) : Regex := .alt r .eps

/-- `r1|r2|...` — n-ary alternation. -/
def re_alts : List Regex → Regex
  | [] => .fail
  | [r] => r
  | r :: rs => .alt r (re_alts rs)

/-- Concatenation of a list of regexes. -/
def re_cat : List Regex → Regex
  | [] => .eps
  | [r] => r
  | r :: rs => .seq r (re_cat rs)

/-- `.*` (the boolean search result of the lazy `.*?` is the same). -/
def re_dotstar : Regex := .star .dot

/-! ### Intent patterns — `src/core/calendar_and_clock.py` lines 21-66 -/

/-- `TIME_PATTERNS` (calendar_and_clock.py lines 21-30). -/
def TIME_PATTERNS : List Regex :=
  [re_cat [re_lit "what", re_alts [re_lit "'s", re_lit " is"], re_lit " the time"],
   re_lit "tell me the time",
   re_lit "current time",
   re_lit "time now",
   re_cat [re_lit "what time ", re_alts [re_lit "is it", re_lit "do we have"]],
   re_cat [re_opt (re_lit "can you "), re_lit "tell me what time it is"],
   re_lit "do you know the time",
   re_lit "check the time"]

/-- `DATE_PATTERNS` (calendar_and_clock.py lines 32-47). -/
def DATE_PATTERNS : List Regex :=
  [re_cat [re_lit "what", re_alts [re_lit "'s", re_lit " is"], re_lit " ",
           re_opt (re_lit "the "), re_lit "date",
           re_opt (re_cat [re_dotstar, re_lit "today"])],
   re_lit "today's date",
   re_cat [re_lit "what ", re_opt (re_lit "is the "), re_lit "date"],
   re_cat [re_lit "tell me ", re_opt (re_alts [re_lit "the ", re_lit "today's "]),
           re_lit "date"],
   re_cat [re_opt (re_lit "can you "), re_lit "tell me ", re_opt (re_lit "the "),
           re_lit "date"],
   re_cat [re_lit "what ", re_opt (re_lit "is the "), re_lit "date ",
           re_alts [re_lit "today", re_lit "now"]],
   re_lit "what day of the month is it",
   re_cat [re_lit "which date is ", re_alts [re_lit "it", re_lit "today"]],
   re_cat [re_alts [re_lit "what", re_lit "which"], re_lit " date ",
           re_alts [re_lit "do we have", re_lit "is it"]],
   re_lit "date please",
   re_lit "give me the date",
   re_lit "today's date",
   re_cat [re_alts [re_lit "what", re_lit "which"], re_lit " date"],
   re_lit "date"]

/-- `DAY_PATTERNS` (calendar_and_clock.py lines 49-56). -/
def DAY_PATTERNS : List Regex :=
  [re_cat [re_lit "what day is ", re_alts [re_lit "it", re_lit "today"]],
   re_cat [re_lit "which day is ", re_alts [re_lit "it", re_lit "today"]],
   re_lit "tell me the day",
   re_cat [re_opt (re_lit "can you "), re_lit "tell me what day it is"],
   re_lit "what day of the week is it",
   re_cat [re_lit "is it ",
           re_alts [re_lit "monday", re_lit "tuesday", re_lit "wednesday",
                    re_lit "thursday", re_lit "friday", re_lit "saturday",
                    re_lit "sunday"]]]

/-- `CALENDAR_PATTERNS` (calendar_and_clock.py lines 58-66). -/
def CALENDAR_PATTERNS : List Regex :=
  [re_cat [re_alts [re_lit "read", re_lit "tell"], re_lit " me this month's calendar"],
   re_cat [re_lit "how many days ", re_opt (re_lit "are "),
           re_alts [re_lit "in", re_lit "this"], re_lit " ",
           re_opt (re_lit "this "), re_lit "month"],
   re_lit "tell me about this month",
   re_lit "what month is it",
   re_cat [re_lit "give me ", re_opt (re_lit "the "), re_lit "month",
           re_opt (re_lit "'s"), re_lit " details"],
   re_cat [re_lit "tell me about ", re_opt (re_lit "the "), re_lit "current month"],
   re_lit "how long is this month"]

/-- Python `str.lower()` per character (ASCII; see `sanitize` on the
non-ASCII caveat). -/
def py_lower (l : List Char) : List Char := l.map Char.toLower

/-- Python `str.strip()` over the ASCII whitespace characters
(`Char.isWhitespace` = space, tab, newline, carriage return). -/
def py_strip (l : List Char) : List Char :=
  ((l.dropWhile Char.isWhitespace).reverse.dropWhile Char.isWhitespace).reverse

/-- `detect_time_intent` (calendar_and_clock.py lines 68-70):
`any(re.search(pattern, text.lower()) for pattern in TIME_PATTERNS)`. -/
def detect_time_intent (text : List Char) : Bool :=
  TIME_PATTERNS.any fun p => re_search p (py_lower text)

/-- `detect_date_intent` (calendar_and_clock.py lines 72-74). -/
def detect_date_intent (text : List Char) : Bool :=
  DATE_PATTERNS.any fun p => re_search p (py_lower text)

/-- `detect_day_intent` (calendar_and_clock.py lines 76-78). -/
def detect_day_intent (text : List Char) : Bool :=
  DAY_PATTERNS.any fun p => re_search p (py_lower text)

/-- `detect_calendar_intent` (calendar_and_clock.py lines 80-82). -/
def detect_calendar_intent (text : List Char) : Bool :=
  CALENDAR_PATTERNS.any fun p => re_search p (py_lower text)

/-! ### Responses — `src/core/calendar_and_clock.py` lines 84-204 -/

/-- A snapshot of `datetime.datetime.now()` together with the
`calendar.monthrange` facts the module reads — the embedding's stand-in for
the ambient current instant. -/
structure Now : Type where
  hour24 : Nat           -- now.hour (0-23)
  minute : Nat           -- now.minute (0-59)
  weekday : String       -- now.strftime('%A')
  month : String         -- now.strftime('%B')
  day : Nat              -- now.day
  year : Nat             -- now.year
  monthDays : Nat        -- calendar.monthrange(year, month)[1]
  monthStartDay : String -- calendar.day_name[monthrange(year, month)[0]]
deriving DecidableEq, Repr

/-- Zero-padded two-digit field of `strftime` (`%I`, `%M`). -/
def pad2 (n : Nat) : String :=
  if n < 10 then "0" ++ toString n else toString n

/-- `get_current_time` (calendar_and_clock.py lines 84-115): 12-hour clock
with the minute-naming rule; display via `strftime('%I:%M %p')`.  The
`except` arm (lines 112-115) is an exception path with no trigger in the
pure embedding. -/
def get_current_time (now : Now) : String × String :=
  let hour0 := now.hour24 % 12
  let hour := if hour0 = 0 then 12 else hour0
  let minute := now.minute
  let meridian := if 12 ≤ now.hour24 then "pm" else "am"
  let minute_str :=
    if minute = 0 then "o'clock"
    else if minute < 10 then "oh " ++ toString minute
    else toString minute
  let ampm := if 12 ≤ now.hour24 then "PM" else "AM"
  ("It's " ++ toString hour ++ " " ++ minute_str ++ " " ++ meridian,
   "üïê " ++ pad2 hour ++ ":" ++ pad2 minute ++ " " ++ ampm)

/-- `get_current_date` (calendar_and_clock.py lines 125-169): weekday, month,
ordinal day, year.  The strftime fallback (lines 137-144) and the two outer
exception arms (lines 159-169) are exception paths with no trigger in the
pure embedding. -/
def get_current_date (now : Now) : String × String :=
  let day_str := get_ordinal_suffix now.day
  ("Today is " ++ now.weekday ++ ", " ++ now.month ++ " " ++ day_str ++ ", " ++
     toString now.year,
   "üìÖ " ++ now.weekday ++ ", " ++ now.month ++ " " ++ toString now.day ++ ", " ++
     toString now.year)

/-- `get_current_day` (calendar_and_clock.py lines 171-181). -/
def get_current_day (now : Now) : String × String :=
  ("Today is " ++ now.weekday, "üìÖ " ++ now.weekday)

/-- `get_month_calendar` (calendar_and_clock.py lines 183-204). -/
def get_month_calendar (now : Now) : String × String :=
  ("We are in the month of " ++ now.month ++ ". This month has " ++
     toString now.monthDays ++ " days in total. The first day of " ++ now.month ++
     " was a " ++ now.monthStartDay ++ ". Today is day number " ++
     toString now.day ++ " of the month.",
   "üìÖ " ++ now.month ++ " " ++ toString now.year ++ "\n‚Ä¢ Days in month: " ++
     toString now.monthDays ++ "\n‚Ä¢ Started on: " ++ now.monthStartDay ++
     "\n‚Ä¢ Current day: " ++ toString now.day ++ " of " ++ toString now.monthDays)

/-- The keyword-fallback word list of the date branch
(calendar_and_clock.py line 237). -/
def fallback_date_words : List String := ["date", "today", "day", "month"]

/-- The keyword-fallback word list of the time branch
(calendar_and_clock.py line 240). -/
def fallback_time_words : List String := ["time", "clock", "hour"]

/-- `text.lower().strip()` of `process_time_query` (line 218). -/
def preprocess (text : String) : List Char :=
  py_strip (py_lower text.toList)

/-- Embedding of `process_time_query` (calendar_and_clock.py lines 206-254):
empty-input guard, the four regex groups in fixed order (date first), then
the keyword fallback by substring containment, else `None`.  The two
`except` arms (lines 244-247 and 251-254) are exception paths with no
trigger in the pure embedding. -/
def process_time_query (now : Now) (text : String) : Option (String × String) :=
  if text = "" then           -- `if not text:` (lines 213-216)
    some ("I didn't quite catch that. Could you please repeat your question?",
          "‚ö†Ô∏è Could not understand the query")
  else
    let t := preprocess text
    if detect_date_intent t then some (get_current_date now)
    else if detect_time_intent t then some (get_current_time now)
    else if detect_day_intent t then some (get_current_day now)
    else if detect_calendar_intent t then some (get_month_calendar now)
    else if fallback_date_words.any (fun word => py_in word.toList t) then
      some (get_current_date now)
    else if fallback_time_words.any (fun word => py_in word.toList t) then
      some (get_current_time now)
    else none

/-- A concrete instant for the evaluation theorems:
Monday, January 5th 2026, 14:30. -/
def sample_now : Now :=
  { hour24 := 14, minute := 30, weekday := "Monday", month := "January",
    day := 5, year := 2026, monthDays := 31, monthStartDay := "Thursday" }

/-!
## Support lemmas

Facts about the normalizer of `is_wake_word`: how `collapse_sp` and
`strip_sp` interact, that normalization is idempotent, and that the two
normalization orders of main.py (lines 64-65 vs lines 71-72) produce the
same string. -/

theorem collapse_sp_head? (l : List Char) : (collapse_sp l).head? = l.head? := by
  induction l using collapse_sp.induct with
  | case1 => rfl
  | case2 c => rfl
  | case3 c d l h ih =>
    rw [collapse_sp, if_pos h, ih]
    simp [h.1, h.2]
  | case4 c d l h ih =>
    rw [collapse_sp, if_neg h]
    rfl

theorem chain'_collapse_sp (l : List Char) :
    List.Chain' (fun a b => ¬(a = ' ' ∧ b = ' ')) (collapse_sp l) := by
  induction l using collapse_sp.induct with
  | case1 => rw [collapse_sp]; exact List.chain'_nil
  | case2 c => rw [collapse_sp]; exact List.chain'_singleton c
  | case3 c d l h ih =>
    rw [collapse_sp, if_pos h]; exact ih
  | case4 c d l h ih =>
    rw [collapse_sp, if_neg h]
    rw [List.chain'_cons']
    refine ⟨?_, ih⟩
    intro y hy
    rw [collapse_sp_head? (d :: l)] at hy
    simp only [List.head?_cons, Option.mem_def, Option.some.injEq] at hy
    subst hy
    exact h

theorem collapse_sp_eq_self {l : List Char}
    (h : List.Chain' (fun a b => ¬(a = ' ' ∧ b = ' ')) l) : collapse_sp l = l := by
  induction l using collapse_sp.induct with
  | case1 => rfl
  | case2 c => rfl
  | case3 c d l hcd ih =>
    exact absurd hcd (List.chain'_cons.mp h).1
  | case4 c d l hcd ih =>
    rw [collapse_sp, if_neg hcd, ih (List.chain'_cons.mp h).2]

theorem mem_collapse_sp {a : Char} {l : List Char} (h : a ∈ collapse_sp l) : a ∈ l := by
  induction l using collapse_sp.induct with
  | case1 => exact absurd h (List.not_mem_nil a)
  | case2 c => exact h
  | case3 c d l hcd ih =>
    rw [collapse_sp, if_pos hcd] at h
    exact List.mem_cons_of_mem c (ih h)
  | case4 c d l hcd ih =>
    rw [collapse_sp, if_neg hcd] at h
    rcases List.mem_cons.mp h with h | h
    · exact List.mem_cons.mpr (Or.inl h)
    · exact List.mem_cons_of_mem c (ih h)

theorem collapse_sp_append_single (l : List Char) (c : Char) :
    collapse_sp (l ++ [c]) =
      if l.getLast? = some ' ' ∧ c = ' ' then collapse_sp l else collapse_sp l ++ [c] := by
  induction l using collapse_sp.induct with
  | case1 =>
    simp [collapse_sp]
  | case2 d =>
    show collapse_sp [d, c] = _
    conv_lhs => rw [collapse_sp]
    by_cases h : d = ' ' ∧ c = ' '
    · rw [if_pos h]
      have hg : ([d] : List Char).getLast? = some ' ' := by
        rw [List.getLast?_singleton, h.1]
      rw [if_pos ⟨hg, h.2⟩, h.1, h.2]
    · rw [if_neg h, if_neg]
      · rfl
      · intro hc
        apply h
        refine ⟨?_, hc.2⟩
        have := hc.1
        rwa [List.getLast?_singleton, Option.some.injEq] at this
  | case3 a d l h ih =>
    have h1 : (a :: d :: l) ++ [c] = a :: d :: (l ++ [c]) := by simp
    rw [h1, collapse_sp, if_pos h]
    have h2 : (d :: l) ++ [c] = d :: (l ++ [c]) := by simp
    rw [← h2, ih, List.getLast?_cons_cons]
    show _ = if (a :: d :: l).getLast? = some ' ' ∧ c = ' ' then collapse_sp (a :: d :: l)
      else collapse_sp (a :: d :: l) ++ [c]
    rw [List.getLast?_cons_cons, collapse_sp, if_pos h]
  | case4 a d l h ih =>
    have h1 : (a :: d :: l) ++ [c] = a :: d :: (l ++ [c]) := by simp
    rw [h1, collapse_sp, if_neg h]
    have h2 : (d :: l) ++ [c] = d :: (l ++ [c]) := by simp
    rw [← h2, ih]
    show _ = if (a :: d :: l).getLast? = some ' ' ∧ c = ' ' then collapse_sp (a :: d :: l)
      else collapse_sp (a :: d :: l) ++ [c]
    rw [List.getLast?_cons_cons, collapse_sp, if_neg h]
    by_cases hc : (d :: l).getLast? = some ' ' ∧ c = ' '
    · rw [if_pos hc, if_pos hc]
    · rw [if_neg hc, if_neg hc]
      rfl

theorem collapse_sp_reverse (l : List Char) :
    collapse_sp l.reverse = (collapse_sp l).reverse := by
  induction l using collapse_sp.induct with
  | case1 => rfl
  | case2 c => rfl
  | case3 c d l h ih =>
    rw [collapse_sp, if_pos h]
    rw [List.reverse_cons, collapse_sp_append_single, List.getLast?_reverse]
    rw [if_pos ⟨by rw [List.head?_cons, h.2], h.1⟩, ih]
  | case4 c d l h ih =>
    rw [collapse_sp, if_neg h]
    rw [List.reverse_cons, collapse_sp_append_single, List.getLast?_reverse]
    rw [if_neg, ih, List.reverse_cons]
    intro hc
    apply h
    have h2 := hc.1
    rw [List.head?_cons, Option.some.injEq] at h2
    exact ⟨hc.2, h2⟩

theorem collapse_sp_dropWhile_sp (l : List Char) :
    collapse_sp (l.dropWhile (· = ' ')) = (collapse_sp l).dropWhile (· = ' ') := by
  induction l using collapse_sp.induct with
  | case1 => rfl
  | case2 c =>
    by_cases hc : c = ' '
    · rw [collapse_sp, List.dropWhile_cons, if_pos (by simp [hc])]
      rfl
    · rw [collapse_sp, List.dropWhile_cons, if_neg (by simp [hc])]
      rfl
  | case3 c d l h ih =>
    rw [collapse_sp, if_pos h]
    rw [show List.dropWhile (· = ' ') (c :: d :: l) = List.dropWhile (· = ' ') (d :: l) by
      rw [List.dropWhile_cons, if_pos (by simp [h.1])]]
    exact ih
  | case4 c d l h ih =>
    rw [collapse_sp, if_neg h]
    by_cases hc : c = ' '
    · have hd : ¬ d = ' ' := fun hd => h ⟨hc, hd⟩
      rw [show List.dropWhile (· = ' ') (c :: d :: l) = List.dropWhile (· = ' ') (d :: l) by
        rw [List.dropWhile_cons, if_pos (by simp [hc])]]
      rw [show List.dropWhile (· = ' ') (d :: l) = d :: l by
        rw [List.dropWhile_cons, if_neg (by simp [hd])]]
      rw [show List.dropWhile (· = ' ') (c :: collapse_sp (d :: l)) =
            List.dropWhile (· = ' ') (collapse_sp (d :: l)) by
        rw [List.dropWhile_cons, if_pos (by simp [hc])]]
      rw [← ih]
      rw [show List.dropWhile (· = ' ') (d :: l) = d :: l by
        rw [List.dropWhile_cons, if_neg (by simp [hd])]]
    · rw [show List.dropWhile (· = ' ') (c :: d :: l) = c :: d :: l by
        rw [List.dropWhile_cons, if_neg (by simp [hc])]]
      rw [show List.dropWhile (· = ' ') (c :: collapse_sp (d :: l)) =
            c :: collapse_sp (d :: l) by
        rw [List.dropWhile_cons, if_neg (by simp [hc])]]
      rw [collapse_sp, if_neg h]

theorem strip_sp_collapse_sp_comm (l : List Char) :
    collapse_sp (strip_sp l) = strip_sp (collapse_sp l) := by
  unfold strip_sp
  rw [collapse_sp_reverse, collapse_sp_dropWhile_sp, collapse_sp_reverse,
    collapse_sp_dropWhile_sp]

theorem mem_strip_sp {a : Char} {l : List Char} (h : a ∈ strip_sp l) : a ∈ l := by
  unfold strip_sp at h
  rw [List.mem_reverse] at h
  have h2 := (List.dropWhile_sublist (l := (List.dropWhile (· = ' ') l).reverse)
    (p := (· = ' '))).mem h
  rw [List.mem_reverse] at h2
  exact (List.dropWhile_sublist (l := l) (p := (· = ' '))).mem h2

theorem strip_sp_prefix_dropWhile (l : List Char) :
    strip_sp l <+: l.dropWhile (· = ' ') := by
  have h1 : List.dropWhile (· = ' ') ((List.dropWhile (· = ' ') l).reverse) <:+
      (List.dropWhile (· = ' ') l).reverse := List.dropWhile_suffix _
  have h2 : (strip_sp l).reverse = List.dropWhile (· = ' ')
      ((List.dropWhile (· = ' ') l).reverse) := by
    unfold strip_sp
    rw [List.reverse_reverse]
  rw [← h2] at h1
  exact List.reverse_suffix.mp h1

theorem dropWhile_strip_sp (l : List Char) :
    (strip_sp l).dropWhile (· = ' ') = strip_sp l := by
  cases e : strip_sp l with
  | nil => rfl
  | cons c t =>
    have hpre : (c :: t) <+: l.dropWhile (· = ' ') := e ▸ strip_sp_prefix_dropWhile l
    obtain ⟨s, hs⟩ := hpre
    have hhead : (l.dropWhile (· = ' ')).head? = some c := by
      rw [← hs]
      rfl
    have hnot := List.head?_dropWhile_not (· = ' ') l
    rw [hhead] at hnot
    rw [List.dropWhile_cons, if_neg (by simp_all)]

theorem strip_sp_idem (l : List Char) : strip_sp (strip_sp l) = strip_sp l := by
  conv_lhs => rw [strip_sp, dropWhile_strip_sp]
  have h1 : (strip_sp l).reverse =
      List.dropWhile (· = ' ') ((List.dropWhile (· = ' ') l).reverse) := by
    unfold strip_sp
    rw [List.reverse_reverse]
  rw [h1, List.dropWhile_idempotent, ← h1, List.reverse_reverse]

theorem noTwoSpaces_reverse {l : List Char}
    (h : List.Chain' (fun a b => ¬(a = ' ' ∧ b = ' ')) l) :
    List.Chain' (fun a b => ¬(a = ' ' ∧ b = ' ')) l.reverse := by
  rw [List.chain'_reverse]
  exact h.imp fun a b hab => fun hba => hab ⟨hba.2, hba.1⟩

theorem noTwoSpaces_strip_sp {l : List Char}
    (h : List.Chain' (fun a b => ¬(a = ' ' ∧ b = ' ')) l) :
    List.Chain' (fun a b => ¬(a = ' ' ∧ b = ' ')) (strip_sp l) := by
  unfold strip_sp
  exact noTwoSpaces_reverse
    ((noTwoSpaces_reverse (h.suffix (List.dropWhile_suffix _))).suffix
      (List.dropWhile_suffix _))

theorem char_toNat_le_of_le {a b : Char} (h : a ≤ b) : a.toNat ≤ b.toNat := by
  rw [Char.le_def, UInt32.le_def, BitVec.le_def] at h
  exact h

theorem toLower_eq_self_of_clean {c : Char}
    (h : ('a' ≤ c ∧ c ≤ 'z') ∨ ('0' ≤ c ∧ c ≤ '9') ∨ c = ' ') :
    c.toLower = c := by
  unfold Char.toLower
  rw [if_neg]
  intro hc
  obtain ⟨h1, h2⟩ := hc
  rcases h with ⟨ha, _⟩ | ⟨_, hb⟩ | hsp
  · have h3 := char_toNat_le_of_le ha
    have h4 : ('a').toNat = 97 := rfl
    omega
  · have h3 := char_toNat_le_of_le hb
    have h4 : ('9').toNat = 57 := rfl
    omega
  · subst hsp
    have h4 : (' ').toNat = 32 := rfl
    omega

theorem clean_keep_alnum_space (c : Char) :
    ('a' ≤ keep_alnum_space c ∧ keep_alnum_space c ≤ 'z') ∨
    ('0' ≤ keep_alnum_space c ∧ keep_alnum_space c ≤ '9') ∨
    keep_alnum_space c = ' ' := by
  unfold keep_alnum_space
  by_cases h : ('a' ≤ c ∧ c ≤ 'z') ∨ ('0' ≤ c ∧ c ≤ '9') ∨ c = ' '
  · rw [if_pos h]
    exact h
  · rw [if_neg h]
    exact Or.inr (Or.inr rfl)

theorem keep_eq_self_of_clean {c : Char}
    (h : ('a' ≤ c ∧ c ≤ 'z') ∨ ('0' ≤ c ∧ c ≤ '9') ∨ c = ' ') :
    keep_alnum_space c = c := by
  unfold keep_alnum_space
  rw [if_pos h]

theorem clean_sanitize {a : Char} {l : List Char} (h : a ∈ sanitize l) :
    ('a' ≤ a ∧ a ≤ 'z') ∨ ('0' ≤ a ∧ a ≤ '9') ∨ a = ' ' := by
  unfold sanitize at h
  obtain ⟨b, _, hb⟩ := List.mem_map.mp h
  rw [← hb]
  exact clean_keep_alnum_space b.toLower

theorem sanitize_eq_self {l : List Char}
    (h : ∀ a ∈ l, ('a' ≤ a ∧ a ≤ 'z') ∨ ('0' ≤ a ∧ a ≤ '9') ∨ a = ' ') :
    sanitize l = l := by
  unfold sanitize
  rw [show l.map (fun c => keep_alnum_space c.toLower) = l.map id by
    apply List.map_congr_left
    intro a ha
    rw [toLower_eq_self_of_clean (h a ha), keep_eq_self_of_clean (h a ha)]
    rfl]
  exact List.map_id l

theorem clean_norm_text (s : String) :
    ∀ a ∈ norm_text s, ('a' ≤ a ∧ a ≤ 'z') ∨ ('0' ≤ a ∧ a ≤ '9') ∨ a = ' ' := by
  intro a ha
  unfold norm_text at ha
  exact clean_sanitize (mem_collapse_sp (mem_strip_sp ha))

theorem norm_text_mk (l : List Char) :
    norm_text (String.mk l) = strip_sp (collapse_sp (sanitize l)) := rfl

theorem norm_text_idem (s : String) :
    norm_text (String.mk (norm_text s)) = norm_text s := by
  rw [norm_text_mk, sanitize_eq_self (clean_norm_text s)]
  have h1 : collapse_sp (norm_text s) = norm_text s := by
    unfold norm_text
    exact collapse_sp_eq_self (noTwoSpaces_strip_sp (chain'_collapse_sp _))
  rw [h1]
  unfold norm_text
  exact strip_sp_idem _

theorem norm_wake_eq_norm_text (s : String) : norm_wake s = norm_text s := by
  unfold norm_wake norm_text
  exact strip_sp_collapse_sp_comm _

/-!
## Claim theorems -/

/-- C1: the claim says that in Idle a wake score with 0.55 ≤ score < 0.9
raises a confirmation prompt and moves to AwaitingConfirmation, and that only
score ≥ 0.9 goes directly to Conversing; in particular a score of 0.60 leads
to AwaitingConfirmation.  The executed code disagrees: the block at main.py
lines 194-204 decides with a single 0.70 cutoff and leaves the loop iteration
on every path, so the two-tier block (lines 215-258), which does implement
the claimed policy, is unreachable.  At score 0.60 the executed code
discards the utterance and stays idle; at 0.80 it goes directly to
Conversing. -/
theorem c1_wake_two_tier_policy_dead :
    wake_decision (60/100) = WakeOutcome.idle ∧
    wake_decision (80/100) = WakeOutcome.conversing ∧
    wake_decision_unreachable (60/100) = WakeOutcome.awaitConfirmation := by
  refine ⟨?_, ?_, ?_⟩
  · unfold wake_decision
    rw [if_neg (by norm_num)]
  · unfold wake_decision
    rw [if_pos (by norm_num)]
  · unfold wake_decision_unreachable
    rw [if_neg (by norm_num), if_pos (by norm_num)]

/-- C2 counterexample: with a failing external client and the concrete
utterance "hello", the LLM branch of `sathi_interaction` produces no spoken
response at all — contrary to the claim that the dispatcher returns a fixed
apologetic ResponsePair and always emits some response. -/
theorem c2_responder_failure_no_response_counterexample :
    emits_spoken_response (llm_step (query_gemma failing_responder "hello")) = false := rfl

/-- C2 amended: when the external client fails, the failure propagates out of
`query_gemma` (which has no handling of its own) and is caught by the
`try`/`except` of `sathi_interaction`, which logs the error and returns —
no error escapes the interaction, but no spoken response and no apologetic
ResponsePair is produced either. -/
theorem c2_responder_failure_silent_return
    (generate_content : String → Except String String) (prompt msg : String)
    (h : generate_content (SYSTEM_PROMPT ++ "\nUser: " ++ prompt) = .error msg) :
    llm_step (query_gemma generate_content prompt) = LLMOutcome.silentReturn := by
  unfold query_gemma llm_step
  rw [h]

/-- C2 witness: the amended theorem applied to the always-failing responder
at the concrete utterance "hello". -/
theorem c2_responder_failure_silent_return_witness :
    llm_step (query_gemma failing_responder "hello") = LLMOutcome.silentReturn :=
  c2_responder_failure_silent_return failing_responder "hello"
    "503 Service Unavailable" rfl

/-- C3 counterexample: the claim says classification of the empty string
returns None; in the code `process_time_query ""` returns a fixed
could-not-understand ResponsePair, not None. -/
theorem c3_empty_input_counterexample :
    (process_time_query sample_now "").isSome = true := rfl

/-- C3 amended: intent classification is total — for every input string (and
every current instant) it returns one of the date/time/day/calendar response
pairs, the fixed could-not-understand pair, or None, and (being a Lean
function) never raises; for the empty string it returns the fixed
could-not-understand pair rather than None. -/
theorem c3_classification_total :
    (∀ (now : Now) (text : String),
      process_time_query now text = none ∨
      process_time_query now text =
        some ("I didn't quite catch that. Could you please repeat your question?",
              "‚ö†Ô∏è Could not understand the query") ∨
      process_time_query now text = some (get_current_date now) ∨
      process_time_query now text = some (get_current_time now) ∨
      process_time_query now text = some (get_current_day now) ∨
      process_time_query now text = some (get_month_calendar now)) ∧
    (∀ now : Now,
      process_time_query now "" =
        some ("I didn't quite catch that. Could you please repeat your question?",
              "‚ö†Ô∏è Could not understand the query")) := by
  constructor
  · intro now text
    unfold process_time_query
    by_cases h0 : text = ""
    · rw [if_pos h0]
      tauto
    · rw [if_neg h0]
      simp only
      repeat' split
      all_goals tauto
  · intro now
    rfl

/-- C4: for every wake phrase `p` that is non-empty after normalization,
scoring the normalized phrase itself against the singleton phrase set `[p]`
(with the default thresholds) returns exactly 1.0 — the Exact tier fires. -/
theorem c4_exact_tier_self_score (p : String) (h : norm_wake p ≠ []) :
    is_wake_word [p] span_threshold_default token_threshold_default
      (String.mk (norm_text p)) = ⟨1, 1⟩ := by
  have hw : norm_wake p = norm_text p := norm_wake_eq_norm_text p
  have hne : norm_text p ≠ [] := hw ▸ h
  unfold is_wake_word
  rw [if_neg (by
    intro he
    apply hne
    have hd : (String.mk (norm_text p)).data = ("" : String).data := by rw [he]
    simpa using hd)]
  simp only [norm_text_idem]
  unfold wake_loop
  rw [hw, if_neg hne, if_pos rfl]

/-- C4 witness: the theorem applied to the concrete wake phrase
"hey sathi". -/
theorem c4_exact_tier_self_score_witness :
    norm_wake "hey sathi" ≠ [] ∧
    is_wake_word ["hey sathi"] span_threshold_default token_threshold_default
      (String.mk (norm_text "hey sathi")) = ⟨1, 1⟩ :=
  ⟨by decide, c4_exact_tier_self_score "hey sathi" (by decide)⟩

set_option maxRecDepth 200000 in
/-- C5: the date pattern group is evaluated first, so "what date and time is
it" is classified Date — for every current instant the query returns the
current-date response, and (at the sample instant) not the time response. -/
theorem c5_date_precedence :
    (∀ now : Now, process_time_query now "what date and time is it" =
        some (get_current_date now)) ∧
    process_time_query sample_now "what date and time is it" ≠
      some (get_current_time sample_now) := by
  have hmain : ∀ now : Now, process_time_query now "what date and time is it" =
      some (get_current_date now) := by
    intro now
    unfold process_time_query
    rw [if_neg (by decide)]
    have hd : detect_date_intent (preprocess "what date and time is it") = true := by
      decide
    simp only
    rw [if_pos hd]
  refine ⟨hmain, ?_⟩
  rw [hmain sample_now]
  intro hcontra
  have h2 := Option.some.inj hcontra
  exact absurd h2 (by decide)

/-- C6: for every day number, the ordinal suffix of `get_ordinal_suffix`
follows the spec's rule — "th" when day mod 100 lies in [10,20], otherwise
by last digit (1 → "st", 2 → "nd", 3 → "rd", default "th") — and in
particular 1 ↦ "1st", 11 ↦ "11th", 21 ↦ "21st", 112 ↦ "112th". -/
theorem c6_ordinal_suffix_rule :
    (∀ day : Nat, get_ordinal_suffix day = toString day ++ spec_ordinal_suffix day) ∧
    get_ordinal_suffix 1 = "1st" ∧ get_ordinal_suffix 11 = "11th" ∧
    get_ordinal_suffix 21 = "21st" ∧ get_ordinal_suffix 112 = "112th" := by
  refine ⟨?_, by decide, by decide, by decide, by decide⟩
  intro day
  simp only [get_ordinal_suffix, spec_ordinal_suffix]
  by_cases h : 10 ≤ day % 100 ∧ day % 100 ≤ 20
  · rw [if_pos h, if_pos h]
  · rw [if_neg h, if_neg h]
    have hcase : day % 10 = 0 ∨ day % 10 = 1 ∨ day % 10 = 2 ∨ day % 10 = 3 ∨
        day % 10 = 4 ∨ day % 10 = 5 ∨ day % 10 = 6 ∨ day % 10 = 7 ∨
        day % 10 = 8 ∨ day % 10 = 9 := by omega
    rcases hcase with h' | h' | h' | h' | h' | h' | h' | h' | h' | h' <;> rw [h'] <;> rfl

/-- C7: for every non-empty voice list and every profile preference, when no
voice matches the preference `speak_text` falls back to the first available
voice and still speaks (returning True) — it never fails solely because the
preferred profile is unavailable. -/
theorem c7_voice_fallback (v0 : Voice) (vs : List Voice) (use_male_voice : Bool)
    (text : String) (htext : text ≠ "")
    (hsel : select_voice use_male_voice (v0 :: vs) = none) :
    speak_text false (v0 :: vs) use_male_voice text = (PyRet.bool true, some v0.id) := by
  unfold speak_text
  rw [if_neg htext]
  simp only [Bool.false_eq_true, if_false, hsel]

/-- C7 witness: one available voice matching neither profile, male
preference, text "hello" — speech happens with that voice. -/
theorem c7_voice_fallback_witness :
    speak_text false [⟨"Microsoft Ravi Desktop", "ravi-id"⟩] true "hello" =
      (PyRet.bool true, some "ravi-id") :=
  c7_voice_fallback ⟨"Microsoft Ravi Desktop", "ravi-id"⟩ [] true "hello"
    (by decide) (by decide)

set_option maxRecDepth 200000 in
/-- C8: the wake score is phrase-order dependent — "hello sathi" is itself a
configured wake phrase, yet scoring its own text over the full `WAKE_WORDS`
list returns 16/20 = 0.8 < 1.0, because the windowed-fuzzy tier of the
earlier phrase "hey sathi" reaches the 0.65 span threshold and returns
immediately, before the Exact tier of "hello sathi" is ever evaluated. -/
theorem c8_phrase_order_dependent_score :
    "hello sathi" ∈ WAKE_WORDS ∧
    is_wake_word WAKE_WORDS span_threshold_default token_threshold_default "hello sathi"
      = ⟨16, 20⟩ ∧
    PyFloat.toRat ⟨16, 20⟩ = 4/5 ∧ ((4 : ℚ)/5) < 1 := by
  refine ⟨by decide, by decide, ?_, by norm_num⟩
  unfold PyFloat.toRat
  norm_num

set_option maxRecDepth 200000 in
/-- C9: the keyword fallback of `process_time_query` tests substring
containment on the whole lowercased text, not token membership — every
non-empty input that matches no regex group but contains "date", "today",
"day" or "month" as a substring (e.g. inside "birthday") is classified Date
and receives the current-date response instead of None. -/
theorem c9_keyword_fallback_substring (now : Now) (text : String) (htext : text ≠ "")
    (hdate : detect_date_intent (preprocess text) = false)
    (htime : detect_time_intent (preprocess text) = false)
    (hday : detect_day_intent (preprocess text) = false)
    (hcal : detect_calendar_intent (preprocess text) = false)
    (hkw : fallback_date_words.any (fun word => py_in word.toList (preprocess text))
      = true) :
    process_time_query now text = some (get_current_date now) := by
  unfold process_time_query
  rw [if_neg htext]
  simp only [hdate, htime, hday, hcal, hkw, if_false, if_true, Bool.false_eq_true]

set_option maxRecDepth 400000 in
/-- C9 witness: the theorem applied at the concrete input "birthday", which
matches no pattern group but contains "day" as a substring. -/
theorem c9_keyword_fallback_substring_witness :
    ("birthday" : String) ≠ "" ∧
    process_time_query sample_now "birthday" = some (get_current_date sample_now) :=
  ⟨by decide, c9_keyword_fallback_substring sample_now "birthday" (by decide) (by decide)
    (by decide) (by decide) (by decide) (by decide)⟩

/-- C10: `speak_text` returns None (a falsy non-boolean, not False) both for
empty input text and — engine permitting — for an empty system voice list,
performing no synthesis in either case; and it returns True only when
synthesis completed (non-empty text, engine not failing, at least one voice,
and a voice actually selected for speaking). -/
theorem c10_speak_text_return_values :
    (∀ (engine_fails : Bool) (voices : List Voice) (use_male_voice : Bool),
      speak_text engine_fails voices use_male_voice "" = (PyRet.none, Option.none)) ∧
    (∀ (use_male_voice : Bool) (text : String), text ≠ "" →
      speak_text false [] use_male_voice text = (PyRet.none, Option.none)) ∧
    (∀ (engine_fails : Bool) (voices : List Voice) (use_male_voice : Bool)
        (text : String) (voice : Option String),
      speak_text engine_fails voices use_male_voice text = (PyRet.bool true, voice) →
      text ≠ "" ∧ engine_fails = false ∧ voices ≠ [] ∧ voice.isSome = true) := by
  refine ⟨?_, ?_, ?_⟩
  · intro ef vs m
    unfold speak_text
    rw [if_pos rfl]
  · intro m t ht
    unfold speak_text
    rw [if_neg ht]
    rfl
  · intro ef vs m t w h
    unfold speak_text at h
    by_cases ht : t = ""
    · rw [if_pos ht] at h
      exact absurd h (by simp)
    · rw [if_neg ht] at h
      by_cases hef : ef = true
      · rw [if_pos hef] at h
        exact absurd h (by simp)
      · rw [if_neg hef] at h
        cases vs with
        | nil => simp at h
        | cons v0 vs' =>
          refine ⟨ht, by simpa using hef, by simp, ?_⟩
          cases hsel : select_voice m (v0 :: vs') with
          | some vid =>
            simp only [hsel, Prod.mk.injEq] at h
            rw [← h.2]
            rfl
          | none =>
            simp only [hsel, Prod.mk.injEq] at h
            rw [← h.2]
            rfl

/-- C10 witness: the empty-voice-list conjunct applied at non-empty text
"hello" with a working engine. -/
theorem c10_speak_text_return_values_witness :
    speak_text false [] true "hello" = (PyRet.none, Option.none) :=
  c10_speak_text_return_values.2.1 true "hello" (by decide)

end Sathi
